import Mathlib

/-!
Verification of the MIDI byte-stream parser (`src/midi/midi.c`, `src/midi/midi.h`).

The C code is shallowly embedded: the parser state and the output message
struct become Lean structures over `Nat` (each field a machine integer whose
value range is tracked by hypotheses where it matters), and the three parsing
functions become pure Lean functions returning the result kind together with
the updated parser state and the updated message struct.  The C functions
mutate `parser` and `message` through pointers; here the updated values are
returned.  The NULL-pointer guards of the C code have no counterpart in the
embedding (references are always valid).  The anonymous payload union of
`midi_message_t` is embedded as separate fields, one per union member, since
no claim under consideration depends on the memory aliasing of union members.
-/

namespace Midi

/-! ### Constants from midi.h and midi.c -/

@[simp] def MIDI_MSN_MASK : Nat := 0xF0
@[simp] def MIDI_LSN_MASK : Nat := 0x0F
@[simp] def MIDI_CHANNEL_MASK : Nat := 0x0F
@[simp] def MIDI_MSB_MASK : Nat := 0x80
@[simp] def MIDI_BUFFER_SIZE : Nat := 2
@[simp] def MIDI_MAX_DATA_BYTE : Nat := 0x7F

@[simp] def MIDI_CHANNEL_NONE : Nat := 0xFF

@[simp] def MIDI_MESSAGE_NONE : Nat := 0x00
@[simp] def MIDI_MESSAGE_NOTE_OFF : Nat := 0x80
@[simp] def MIDI_MESSAGE_NOTE_ON : Nat := 0x90
@[simp] def MIDI_MESSAGE_KEY_PRESSURE : Nat := 0xA0
@[simp] def MIDI_MESSAGE_CONTROL_CHANGE : Nat := 0xB0
@[simp] def MIDI_MESSAGE_ALL_SOUND_OFF : Nat := 0x78
@[simp] def MIDI_MESSAGE_RESET_ALL_CONTROLLERS : Nat := 0x79
@[simp] def MIDI_MESSAGE_LOCAL_CONTROL : Nat := 0x7A
@[simp] def MIDI_MESSAGE_ALL_NOTES_OFF : Nat := 0x7B
@[simp] def MIDI_MESSAGE_OMNI_OFF : Nat := 0x7C
@[simp] def MIDI_MESSAGE_OMNI_ON : Nat := 0x7D
@[simp] def MIDI_MESSAGE_MONO_ON : Nat := 0x7E
@[simp] def MIDI_MESSAGE_POLY_ON : Nat := 0x7F
@[simp] def MIDI_MESSAGE_PROGRAM_CHANGE : Nat := 0xC0
@[simp] def MIDI_MESSAGE_CHANNEL_PRESSURE : Nat := 0xD0
@[simp] def MIDI_MESSAGE_PITCH_BEND : Nat := 0xE0
@[simp] def MIDI_MESSAGE_SYSTEM_EXCLUSIVE : Nat := 0xF0
@[simp] def MIDI_MESSAGE_MTC_QUARTER_FRAME : Nat := 0xF1
@[simp] def MIDI_MESSAGE_SONG_POSITION_POINTER : Nat := 0xF2
@[simp] def MIDI_MESSAGE_SONG_SELECT : Nat := 0xF3
@[simp] def MIDI_MESSAGE_TUNE_REQUEST : Nat := 0xF6
@[simp] def MIDI_MESSAGE_END_OF_EXCLUSIVE : Nat := 0xF7
@[simp] def MIDI_MESSAGE_TIMING_CLOCK : Nat := 0xF8
@[simp] def MIDI_MESSAGE_START : Nat := 0xFA
@[simp] def MIDI_MESSAGE_CONTINUE : Nat := 0xFB
@[simp] def MIDI_MESSAGE_STOP : Nat := 0xFC
@[simp] def MIDI_MESSAGE_ACTIVE_SENSE : Nat := 0xFE
@[simp] def MIDI_MESSAGE_SYSTEM_RESET : Nat := 0xFF

@[simp] def MIDI_CC_ALL_SOUND_OFF : Nat := 0x78
@[simp] def MIDI_CC_RESET_ALL_CONTROLLERS : Nat := 0x79
@[simp] def MIDI_CC_LOCAL_CONTROL : Nat := 0x7A
@[simp] def MIDI_CC_ALL_NOTES_OFF : Nat := 0x7B
@[simp] def MIDI_CC_OMNI_OFF : Nat := 0x7C
@[simp] def MIDI_CC_OMNI_ON : Nat := 0x7D
@[simp] def MIDI_CC_MONO_ON : Nat := 0x7E
@[simp] def MIDI_CC_POLY_ON : Nat := 0x7F

/-! ### Data types from midi.h -/

/-- `midi_parser_t` (midi.h): the parser's internal state.  `buffer[2]` is
embedded as the two fields `buffer0`, `buffer1`. -/
structure midi_parser_t where
  message_type : Nat
  channel : Nat
  active_channel : Nat
  buffer0 : Nat
  buffer1 : Nat
  byte_count : Nat
deriving Repr, DecidableEq

/-- `midi_message_t` (midi.h): a decoded message.  The anonymous union is
flattened into one field per union member. -/
structure midi_message_t where
  message_type : Nat
  channel : Nat
  note : Nat
  velocity : Nat
  key : Nat
  key_pressure : Nat
  controller : Nat
  control_value : Nat
  program : Nat
  channel_pressure : Nat
  pitch_bend : Nat
  song_position : Nat
  song_select : Nat
  mtc_msg_type : Nat
  mtc_values : Nat
deriving Repr, DecidableEq

/-- `parser->buffer[parser->byte_count++] = byte`: write the data byte at
index `byte_count` and increment the count.  The overflow guard in
`parse_data_byte` has already established `byte_count < MIDI_BUFFER_SIZE`,
so index 0 is `buffer0` and any other index reached is 1, i.e. `buffer1`. -/
def storeDataByte (p : midi_parser_t) (b : Nat) : midi_parser_t :=
  if p.byte_count = 0 then
    { p with buffer0 := b, byte_count := p.byte_count + 1 }
  else
    { p with buffer1 := b, byte_count := p.byte_count + 1 }

/-! ### Functions from midi.c -/

/-- `midi_parser_init` (midi.c:100): the state the initializer writes. -/
def midi_parser_init : midi_parser_t :=
  { message_type := MIDI_MESSAGE_NONE
    channel := MIDI_CHANNEL_NONE
    active_channel := MIDI_CHANNEL_NONE
    buffer0 := 0
    buffer1 := 0
    byte_count := 0 }

/-- `midi_parser_reset` (midi.c:117): delegates to `midi_parser_init`. -/
def midi_parser_reset (_p : midi_parser_t) : midi_parser_t :=
  midi_parser_init

/-- Modelled from the spec: `midi_parser_set_active_channel` is declared in
midi.h (lines 514-515) but its implementation is absent from the sources.
The spec says it stores a filter value that is not read in the decode path:
"store/retrieve a filter value ... treat it as a pass-through accessor only". -/
def midi_parser_set_active_channel (parser : midi_parser_t) (channel : Nat) :
    midi_parser_t :=
  { parser with active_channel := channel }

/-- Modelled from the spec: `midi_parser_get_active_channel` is declared in
midi.h (line 522) but its implementation is absent from the sources.  Per the
spec it retrieves the stored filter value. -/
def midi_parser_get_active_channel (parser : midi_parser_t) : Nat :=
  parser.active_channel

/-- `parse_status_byte` (midi.c:168).  Returns
(return value, updated parser, updated message). -/
def parse_status_byte (parser : midi_parser_t) (byte : Nat)
    (message : midi_message_t) : Nat × midi_parser_t × midi_message_t :=
  if byte &&& MIDI_MSN_MASK = MIDI_MESSAGE_NOTE_OFF ∨
     byte &&& MIDI_MSN_MASK = MIDI_MESSAGE_NOTE_ON ∨
     byte &&& MIDI_MSN_MASK = MIDI_MESSAGE_KEY_PRESSURE ∨
     byte &&& MIDI_MSN_MASK = MIDI_MESSAGE_CONTROL_CHANGE ∨
     byte &&& MIDI_MSN_MASK = MIDI_MESSAGE_PROGRAM_CHANGE ∨
     byte &&& MIDI_MSN_MASK = MIDI_MESSAGE_CHANNEL_PRESSURE ∨
     byte &&& MIDI_MSN_MASK = MIDI_MESSAGE_PITCH_BEND then
    (MIDI_MESSAGE_NONE,
     { parser with
        message_type := byte &&& MIDI_MSN_MASK
        channel := byte &&& MIDI_CHANNEL_MASK
        byte_count := 0 },
     message)
  else if byte &&& MIDI_MSN_MASK = MIDI_MESSAGE_SYSTEM_EXCLUSIVE then
    if byte = MIDI_MESSAGE_SYSTEM_EXCLUSIVE then
      (MIDI_MESSAGE_SYSTEM_EXCLUSIVE,
       { parser with
          message_type := MIDI_MESSAGE_SYSTEM_EXCLUSIVE
          byte_count := 0 },
       { message with
          message_type := MIDI_MESSAGE_SYSTEM_EXCLUSIVE
          channel := MIDI_CHANNEL_NONE })
    else if byte = MIDI_MESSAGE_MTC_QUARTER_FRAME ∨
            byte = MIDI_MESSAGE_SONG_POSITION_POINTER ∨
            byte = MIDI_MESSAGE_SONG_SELECT then
      (MIDI_MESSAGE_NONE,
       { parser with
          message_type := byte
          channel := MIDI_CHANNEL_NONE
          byte_count := 0 },
       message)
    else if byte = MIDI_MESSAGE_TUNE_REQUEST ∨
            byte = MIDI_MESSAGE_END_OF_EXCLUSIVE then
      (byte,
       { parser with
          message_type := MIDI_MESSAGE_NONE
          channel := MIDI_CHANNEL_NONE
          byte_count := 0 },
       { message with message_type := byte, channel := MIDI_CHANNEL_NONE })
    else if byte = MIDI_MESSAGE_TIMING_CLOCK ∨
            byte = MIDI_MESSAGE_START ∨
            byte = MIDI_MESSAGE_CONTINUE ∨
            byte = MIDI_MESSAGE_STOP ∨
            byte = MIDI_MESSAGE_ACTIVE_SENSE ∨
            byte = MIDI_MESSAGE_SYSTEM_RESET then
      /- Do not clear running status -/
      (byte, parser,
       { message with message_type := byte, channel := MIDI_CHANNEL_NONE })
    else
      /- Undefined system message type -/
      (MIDI_MESSAGE_NONE, parser, message)
  else
    /- Undefined message type -/
    (MIDI_MESSAGE_NONE, parser, message)

/-- `parse_data_byte` (midi.c:266).  Returns
(return value, updated parser, updated message). -/
def parse_data_byte (parser : midi_parser_t) (byte : Nat)
    (message : midi_message_t) : Nat × midi_parser_t × midi_message_t :=
  if byte > MIDI_MAX_DATA_BYTE then
    (MIDI_MESSAGE_NONE, parser, message)
  else if parser.byte_count ≥ MIDI_BUFFER_SIZE then
    (MIDI_MESSAGE_NONE, { parser with byte_count := 0 }, message)
  else if parser.message_type = MIDI_MESSAGE_NOTE_OFF then
    let p := storeDataByte parser byte
    if p.byte_count ≠ 2 then (MIDI_MESSAGE_NONE, p, message)
    else
      (MIDI_MESSAGE_NOTE_OFF,
       { p with byte_count := 0 },
       { message with
          message_type := MIDI_MESSAGE_NOTE_OFF
          channel := p.channel
          note := p.buffer0
          velocity := p.buffer1 })
  else if parser.message_type = MIDI_MESSAGE_NOTE_ON then
    let p := storeDataByte parser byte
    if p.byte_count ≠ 2 then (MIDI_MESSAGE_NONE, p, message)
    else
      /- Note on with velocity 0 is equivalent to note off -/
      let k := if p.buffer1 = 0 then MIDI_MESSAGE_NOTE_OFF
               else MIDI_MESSAGE_NOTE_ON
      (k,
       { p with byte_count := 0 },
       { message with
          message_type := k
          channel := p.channel
          note := p.buffer0
          velocity := p.buffer1 })
  else if parser.message_type = MIDI_MESSAGE_KEY_PRESSURE then
    let p := storeDataByte parser byte
    if p.byte_count ≠ 2 then (MIDI_MESSAGE_NONE, p, message)
    else
      (MIDI_MESSAGE_KEY_PRESSURE,
       { p with byte_count := 0 },
       { message with
          message_type := MIDI_MESSAGE_KEY_PRESSURE
          channel := p.channel
          key := p.buffer0
          key_pressure := p.buffer1 })
  else if parser.message_type = MIDI_MESSAGE_CONTROL_CHANGE then
    let p := storeDataByte parser byte
    if p.byte_count ≠ 2 then (MIDI_MESSAGE_NONE, p, message)
    else
      /- Controllers 120-127 are reclassified as channel mode messages -/
      let k := if p.buffer0 = MIDI_CC_ALL_SOUND_OFF ∨
                  p.buffer0 = MIDI_CC_RESET_ALL_CONTROLLERS ∨
                  p.buffer0 = MIDI_CC_LOCAL_CONTROL ∨
                  p.buffer0 = MIDI_CC_ALL_NOTES_OFF ∨
                  p.buffer0 = MIDI_CC_OMNI_OFF ∨
                  p.buffer0 = MIDI_CC_OMNI_ON ∨
                  p.buffer0 = MIDI_CC_MONO_ON ∨
                  p.buffer0 = MIDI_CC_POLY_ON
               then p.buffer0 else MIDI_MESSAGE_CONTROL_CHANGE
      (k,
       { p with byte_count := 0 },
       { message with
          message_type := k
          channel := p.channel
          controller := p.buffer0
          control_value := p.buffer1 })
  else if parser.message_type = MIDI_MESSAGE_PROGRAM_CHANGE then
    (MIDI_MESSAGE_PROGRAM_CHANGE,
     { parser with byte_count := 0 },
     { message with
        message_type := MIDI_MESSAGE_PROGRAM_CHANGE
        channel := parser.channel
        program := byte })
  else if parser.message_type = MIDI_MESSAGE_CHANNEL_PRESSURE then
    (MIDI_MESSAGE_CHANNEL_PRESSURE,
     { parser with byte_count := 0 },
     { message with
        message_type := MIDI_MESSAGE_CHANNEL_PRESSURE
        channel := parser.channel
        channel_pressure := byte })
  else if parser.message_type = MIDI_MESSAGE_PITCH_BEND then
    let p := storeDataByte parser byte
    if p.byte_count ≠ 2 then (MIDI_MESSAGE_NONE, p, message)
    else
      (MIDI_MESSAGE_PITCH_BEND,
       { p with byte_count := 0 },
       { message with
          message_type := MIDI_MESSAGE_PITCH_BEND
          channel := p.channel
          pitch_bend := p.buffer1 <<< 7 ||| p.buffer0 })
  else if parser.message_type = MIDI_MESSAGE_SYSTEM_EXCLUSIVE then
    /- Just ignore the data byte -/
    (MIDI_MESSAGE_NONE, parser, message)
  else if parser.message_type = MIDI_MESSAGE_MTC_QUARTER_FRAME then
    (MIDI_MESSAGE_MTC_QUARTER_FRAME,
     { parser with message_type := MIDI_MESSAGE_NONE, byte_count := 0 },
     { message with
        message_type := MIDI_MESSAGE_MTC_QUARTER_FRAME
        channel := MIDI_CHANNEL_NONE
        mtc_msg_type := byte >>> 4
        mtc_values := byte &&& MIDI_LSN_MASK })
  else if parser.message_type = MIDI_MESSAGE_SONG_POSITION_POINTER then
    let p := storeDataByte parser byte
    if p.byte_count ≠ 2 then (MIDI_MESSAGE_NONE, p, message)
    else
      (MIDI_MESSAGE_SONG_POSITION_POINTER,
       { p with message_type := MIDI_MESSAGE_NONE, byte_count := 0 },
       { message with
          message_type := MIDI_MESSAGE_SONG_POSITION_POINTER
          channel := MIDI_CHANNEL_NONE
          song_position := p.buffer1 <<< 7 ||| p.buffer0 })
  else if parser.message_type = MIDI_MESSAGE_SONG_SELECT then
    (MIDI_MESSAGE_SONG_SELECT,
     { parser with message_type := MIDI_MESSAGE_NONE, byte_count := 0 },
     { message with
        message_type := MIDI_MESSAGE_SONG_SELECT
        channel := MIDI_CHANNEL_NONE
        song_select := byte })
  else
    /- Unexpected data byte at this time -/
    (MIDI_MESSAGE_NONE, parser, message)

/-- `midi_parse_byte` (midi.c:133).  Returns
(return value, updated parser, updated message). -/
def midi_parse_byte (parser : midi_parser_t) (byte : Nat)
    (message : midi_message_t) : Nat × midi_parser_t × midi_message_t :=
  if byte &&& MIDI_MSB_MASK ≠ 0 then
    parse_status_byte parser byte message
  else
    parse_data_byte parser byte message

/-- Feed a byte list through the parser, threading the parser state and the
message struct, recording (return value, message struct) after each byte. -/
def midi_run (p : midi_parser_t) (m : midi_message_t) :
    List Nat → List (Nat × midi_message_t)
  | [] => []
  | b :: bs =>
    let r := midi_parse_byte p b m
    (r.1, r.2.2) :: midi_run r.2.1 r.2.2 bs

/-- An all-zero message struct, used to instantiate theorems at concrete
inputs. -/
def msg0 : midi_message_t :=
  { message_type := 0, channel := 0, note := 0, velocity := 0, key := 0
    key_pressure := 0, controller := 0, control_value := 0, program := 0
    channel_pressure := 0, pitch_bend := 0, song_position := 0
    song_select := 0, mtc_msg_type := 0, mtc_values := 0 }

/-- A concrete parser state with Note On running status pending (used to
state that non-(0xF6/0xF7) status bytes do not both complete and clear). -/
def noteOnPending : midi_parser_t :=
  { midi_parser_init with message_type := MIDI_MESSAGE_NOTE_ON, channel := 0 }

/-- A concrete parser state with Pitch Bend pending and an empty buffer. -/
def pitchBendPending : midi_parser_t :=
  { midi_parser_init with message_type := MIDI_MESSAGE_PITCH_BEND,
                          channel := 5 }

/-- The number of data bytes each pending message type requires before a
message completes (0, 1 or 2), per the MIDI 1.0 grammar implemented by
`parse_data_byte`. -/
def requiredDataBytes (k : Nat) : Nat :=
  if k = MIDI_MESSAGE_NOTE_OFF ∨ k = MIDI_MESSAGE_NOTE_ON ∨
     k = MIDI_MESSAGE_KEY_PRESSURE ∨ k = MIDI_MESSAGE_CONTROL_CHANGE ∨
     k = MIDI_MESSAGE_PITCH_BEND ∨ k = MIDI_MESSAGE_SONG_POSITION_POINTER
  then 2
  else if k = MIDI_MESSAGE_PROGRAM_CHANGE ∨
          k = MIDI_MESSAGE_CHANNEL_PRESSURE ∨
          k = MIDI_MESSAGE_MTC_QUARTER_FRAME ∨
          k = MIDI_MESSAGE_SONG_SELECT
  then 1
  else 0

/-- Parser states reachable from the initialized state by decode calls. -/
inductive Reachable : midi_parser_t → Prop where
  | init : Reachable midi_parser_init
  | step (p : midi_parser_t) (b : Nat) (m : midi_message_t) :
      b ≤ 255 → Reachable p → Reachable (midi_parse_byte p b m).2.1

/-- The decode-step invariant: the accumulation count is at most 1, and it
is nonzero only while a two-data-byte message type is pending. -/
def ParserInv (p : midi_parser_t) : Prop :=
  p.byte_count ≤ 1 ∧
  (p.byte_count = 0 ∨ requiredDataBytes p.message_type = 2)

/-- A concrete Note On state with one accumulated data byte. -/
def wNoteOn : midi_parser_t :=
  { message_type := MIDI_MESSAGE_NOTE_ON, channel := 3,
    active_channel := MIDI_CHANNEL_NONE, buffer0 := 60, buffer1 := 0,
    byte_count := 1 }

/-- A concrete Control Change state with controller 123 accumulated. -/
def wCC : midi_parser_t :=
  { message_type := MIDI_MESSAGE_CONTROL_CHANGE, channel := 2,
    active_channel := MIDI_CHANNEL_NONE, buffer0 := 123, buffer1 := 0,
    byte_count := 1 }

end Midi

namespace Midi

/-! ### Helper lemmas -/

/-- A data byte (value at most 127) has its most significant bit clear. -/
theorem data_byte_msb {b : Nat} (h : b ≤ 127) : b &&& 128 = 0 := by
  have h7 : b < 2 ^ 7 := by omega
  have h2 := Nat.and_two_pow b 7
  rw [Nat.testBit_lt_two_pow h7] at h2
  simpa using h2

/-- On a data byte, `midi_parse_byte` dispatches to `parse_data_byte`. -/
theorem midi_parse_byte_data (p : midi_parser_t) {b : Nat} (m : midi_message_t)
    (h : b ≤ 127) : midi_parse_byte p b m = parse_data_byte p b m := by
  simp [midi_parse_byte, data_byte_msb h]

/-- The 14-bit assembly `hi << 7 | lo` equals `hi * 128 + lo` when `lo ≤ 127`. -/
theorem assemble14 {lo : Nat} (hi : Nat) (h : lo ≤ 127) :
    hi <<< 7 ||| lo = hi * 128 + lo := by
  have h2 : lo < 2 ^ 7 := by omega
  calc hi <<< 7 ||| lo = 2 ^ 7 * hi ||| lo := by rw [Nat.shiftLeft_eq]; ring_nf
    _ = 2 ^ 7 * hi + lo := (Nat.mul_add_lt_is_or h2 hi).symm
    _ = hi * 128 + lo := by ring

/-- C1: from a parser state with Note On pending and one data byte
accumulated, decoding a second data byte of 0 completes a message whose
kind (returned and in the message struct) is Note Off with the original
channel, note and velocity 0, while the parser keeps Note On as running
status; a second data byte of 1-127 completes Note On with that
velocity. -/
theorem noteOn_velocity_reclassification
    (p : midi_parser_t) (m : midi_message_t) (v : Nat)
    (hk : p.message_type = MIDI_MESSAGE_NOTE_ON)
    (hc : p.channel ≤ 15) (hn : p.buffer0 ≤ 127)
    (hcount : p.byte_count = 1) (hv : v ≤ 127) :
    (midi_parse_byte p v m).1 =
      (if v = 0 then MIDI_MESSAGE_NOTE_OFF else MIDI_MESSAGE_NOTE_ON) ∧
    (midi_parse_byte p v m).2.2.message_type =
      (if v = 0 then MIDI_MESSAGE_NOTE_OFF else MIDI_MESSAGE_NOTE_ON) ∧
    (midi_parse_byte p v m).2.2.channel = p.channel ∧
    (midi_parse_byte p v m).2.2.note = p.buffer0 ∧
    (midi_parse_byte p v m).2.2.velocity = v ∧
    (midi_parse_byte p v m).2.1.message_type = MIDI_MESSAGE_NOTE_ON := by
  rw [midi_parse_byte_data p m hv]
  simp [parse_data_byte, storeDataByte, hk, hcount, show ¬ 127 < v by omega]

end Midi

namespace Midi

/-! ### Branch equations for parse_data_byte -/

theorem pd_invalid (p : midi_parser_t) (b : Nat) (m : midi_message_t)
    (hb : 127 < b) :
    parse_data_byte p b m = (MIDI_MESSAGE_NONE, p, m) := by
  simp [parse_data_byte, hb]

theorem pd_overflow (p : midi_parser_t) (b : Nat) (m : midi_message_t)
    (hb : b ≤ 127) (h2 : 2 ≤ p.byte_count) :
    parse_data_byte p b m =
      (MIDI_MESSAGE_NONE, { p with byte_count := 0 }, m) := by
  simp [parse_data_byte, h2, show ¬ 127 < b by omega]

theorem pd_acc (p : midi_parser_t) (b : Nat) (m : midi_message_t)
    (hb : b ≤ 127) (h0 : p.byte_count = 0)
    (hk : p.message_type = MIDI_MESSAGE_NOTE_OFF ∨
          p.message_type = MIDI_MESSAGE_NOTE_ON ∨
          p.message_type = MIDI_MESSAGE_KEY_PRESSURE ∨
          p.message_type = MIDI_MESSAGE_CONTROL_CHANGE ∨
          p.message_type = MIDI_MESSAGE_PITCH_BEND ∨
          p.message_type = MIDI_MESSAGE_SONG_POSITION_POINTER) :
    parse_data_byte p b m =
      (MIDI_MESSAGE_NONE, { p with buffer0 := b, byte_count := 1 }, m) := by
  rcases hk with h | h | h | h | h | h <;>
    simp [parse_data_byte, storeDataByte, h, h0, show ¬ 127 < b by omega]

theorem pd_fin_note_off (p : midi_parser_t) (b : Nat) (m : midi_message_t)
    (hb : b ≤ 127) (h1 : p.byte_count = 1)
    (hk : p.message_type = MIDI_MESSAGE_NOTE_OFF) :
    parse_data_byte p b m =
      (MIDI_MESSAGE_NOTE_OFF,
       { p with buffer1 := b, byte_count := 0 },
       { m with
          message_type := MIDI_MESSAGE_NOTE_OFF
          channel := p.channel
          note := p.buffer0
          velocity := b }) := by
  simp [parse_data_byte, storeDataByte, hk, h1, show ¬ 127 < b by omega]

theorem pd_fin_note_on (p : midi_parser_t) (b : Nat) (m : midi_message_t)
    (hb : b ≤ 127) (h1 : p.byte_count = 1)
    (hk : p.message_type = MIDI_MESSAGE_NOTE_ON) :
    parse_data_byte p b m =
      (if b = 0 then MIDI_MESSAGE_NOTE_OFF else MIDI_MESSAGE_NOTE_ON,
       { p with buffer1 := b, byte_count := 0 },
       { m with
          message_type :=
            if b = 0 then MIDI_MESSAGE_NOTE_OFF else MIDI_MESSAGE_NOTE_ON
          channel := p.channel
          note := p.buffer0
          velocity := b }) := by
  simp [parse_data_byte, storeDataByte, hk, h1, show ¬ 127 < b by omega]

theorem pd_fin_key_pressure (p : midi_parser_t) (b : Nat) (m : midi_message_t)
    (hb : b ≤ 127) (h1 : p.byte_count = 1)
    (hk : p.message_type = MIDI_MESSAGE_KEY_PRESSURE) :
    parse_data_byte p b m =
      (MIDI_MESSAGE_KEY_PRESSURE,
       { p with buffer1 := b, byte_count := 0 },
       { m with
          message_type := MIDI_MESSAGE_KEY_PRESSURE
          channel := p.channel
          key := p.buffer0
          key_pressure := b }) := by
  simp [parse_data_byte, storeDataByte, hk, h1, show ¬ 127 < b by omega]

theorem pd_fin_control_change (p : midi_parser_t) (b : Nat)
    (m : midi_message_t)
    (hb : b ≤ 127) (h1 : p.byte_count = 1)
    (hk : p.message_type = MIDI_MESSAGE_CONTROL_CHANGE) :
    parse_data_byte p b m =
      (if p.buffer0 = MIDI_CC_ALL_SOUND_OFF ∨
          p.buffer0 = MIDI_CC_RESET_ALL_CONTROLLERS ∨
          p.buffer0 = MIDI_CC_LOCAL_CONTROL ∨
          p.buffer0 = MIDI_CC_ALL_NOTES_OFF ∨
          p.buffer0 = MIDI_CC_OMNI_OFF ∨
          p.buffer0 = MIDI_CC_OMNI_ON ∨
          p.buffer0 = MIDI_CC_MONO_ON ∨
          p.buffer0 = MIDI_CC_POLY_ON
       then p.buffer0 else MIDI_MESSAGE_CONTROL_CHANGE,
       { p with buffer1 := b, byte_count := 0 },
       { m with
          message_type :=
            if p.buffer0 = MIDI_CC_ALL_SOUND_OFF ∨
               p.buffer0 = MIDI_CC_RESET_ALL_CONTROLLERS ∨
               p.buffer0 = MIDI_CC_LOCAL_CONTROL ∨
               p.buffer0 = MIDI_CC_ALL_NOTES_OFF ∨
               p.buffer0 = MIDI_CC_OMNI_OFF ∨
               p.buffer0 = MIDI_CC_OMNI_ON ∨
               p.buffer0 = MIDI_CC_MONO_ON ∨
               p.buffer0 = MIDI_CC_POLY_ON
            then p.buffer0 else MIDI_MESSAGE_CONTROL_CHANGE
          channel := p.channel
          controller := p.buffer0
          control_value := b }) := by
  simp [parse_data_byte, storeDataByte, hk, h1, show ¬ 127 < b by omega]

theorem pd_program_change (p : midi_parser_t) (b : Nat) (m : midi_message_t)
    (hb : b ≤ 127) (hc : p.byte_count ≤ 1)
    (hk : p.message_type = MIDI_MESSAGE_PROGRAM_CHANGE) :
    parse_data_byte p b m =
      (MIDI_MESSAGE_PROGRAM_CHANGE,
       { p with byte_count := 0 },
       { m with
          message_type := MIDI_MESSAGE_PROGRAM_CHANGE
          channel := p.channel
          program := b }) := by
  simp [parse_data_byte, hk, show ¬ 127 < b by omega,
        show ¬ p.byte_count ≥ 2 by omega]

theorem pd_channel_pressure (p : midi_parser_t) (b : Nat) (m : midi_message_t)
    (hb : b ≤ 127) (hc : p.byte_count ≤ 1)
    (hk : p.message_type = MIDI_MESSAGE_CHANNEL_PRESSURE) :
    parse_data_byte p b m =
      (MIDI_MESSAGE_CHANNEL_PRESSURE,
       { p with byte_count := 0 },
       { m with
          message_type := MIDI_MESSAGE_CHANNEL_PRESSURE
          channel := p.channel
          channel_pressure := b }) := by
  simp [parse_data_byte, hk, show ¬ 127 < b by omega,
        show ¬ p.byte_count ≥ 2 by omega]

theorem pd_fin_pitch_bend (p : midi_parser_t) (b : Nat) (m : midi_message_t)
    (hb : b ≤ 127) (h1 : p.byte_count = 1)
    (hk : p.message_type = MIDI_MESSAGE_PITCH_BEND) :
    parse_data_byte p b m =
      (MIDI_MESSAGE_PITCH_BEND,
       { p with buffer1 := b, byte_count := 0 },
       { m with
          message_type := MIDI_MESSAGE_PITCH_BEND
          channel := p.channel
          pitch_bend := b <<< 7 ||| p.buffer0 }) := by
  simp [parse_data_byte, storeDataByte, hk, h1, show ¬ 127 < b by omega]

theorem pd_sysex (p : midi_parser_t) (b : Nat) (m : midi_message_t)
    (hb : b ≤ 127) (hc : p.byte_count ≤ 1)
    (hk : p.message_type = MIDI_MESSAGE_SYSTEM_EXCLUSIVE) :
    parse_data_byte p b m = (MIDI_MESSAGE_NONE, p, m) := by
  simp [parse_data_byte, hk, show ¬ 127 < b by omega,
        show ¬ p.byte_count ≥ 2 by omega]

theorem pd_mtc (p : midi_parser_t) (b : Nat) (m : midi_message_t)
    (hb : b ≤ 127) (hc : p.byte_count ≤ 1)
    (hk : p.message_type = MIDI_MESSAGE_MTC_QUARTER_FRAME) :
    parse_data_byte p b m =
      (MIDI_MESSAGE_MTC_QUARTER_FRAME,
       { p with message_type := MIDI_MESSAGE_NONE, byte_count := 0 },
       { m with
          message_type := MIDI_MESSAGE_MTC_QUARTER_FRAME
          channel := MIDI_CHANNEL_NONE
          mtc_msg_type := b >>> 4
          mtc_values := b &&& MIDI_LSN_MASK }) := by
  simp [parse_data_byte, hk, show ¬ 127 < b by omega,
        show ¬ p.byte_count ≥ 2 by omega]

theorem pd_fin_song_position (p : midi_parser_t) (b : Nat)
    (m : midi_message_t)
    (hb : b ≤ 127) (h1 : p.byte_count = 1)
    (hk : p.message_type = MIDI_MESSAGE_SONG_POSITION_POINTER) :
    parse_data_byte p b m =
      (MIDI_MESSAGE_SONG_POSITION_POINTER,
       { p with message_type := MIDI_MESSAGE_NONE, buffer1 := b,
                byte_count := 0 },
       { m with
          message_type := MIDI_MESSAGE_SONG_POSITION_POINTER
          channel := MIDI_CHANNEL_NONE
          song_position := b <<< 7 ||| p.buffer0 }) := by
  simp [parse_data_byte, storeDataByte, hk, h1, show ¬ 127 < b by omega]

theorem pd_song_select (p : midi_parser_t) (b : Nat) (m : midi_message_t)
    (hb : b ≤ 127) (hc : p.byte_count ≤ 1)
    (hk : p.message_type = MIDI_MESSAGE_SONG_SELECT) :
    parse_data_byte p b m =
      (MIDI_MESSAGE_SONG_SELECT,
       { p with message_type := MIDI_MESSAGE_NONE, byte_count := 0 },
       { m with
          message_type := MIDI_MESSAGE_SONG_SELECT
          channel := MIDI_CHANNEL_NONE
          song_select := b }) := by
  simp [parse_data_byte, hk, show ¬ 127 < b by omega,
        show ¬ p.byte_count ≥ 2 by omega]

theorem pd_default (p : midi_parser_t) (b : Nat) (m : midi_message_t)
    (hb : b ≤ 127) (hc : p.byte_count ≤ 1)
    (hk : ¬ (p.message_type = MIDI_MESSAGE_NOTE_OFF ∨
             p.message_type = MIDI_MESSAGE_NOTE_ON ∨
             p.message_type = MIDI_MESSAGE_KEY_PRESSURE ∨
             p.message_type = MIDI_MESSAGE_CONTROL_CHANGE ∨
             p.message_type = MIDI_MESSAGE_PROGRAM_CHANGE ∨
             p.message_type = MIDI_MESSAGE_CHANNEL_PRESSURE ∨
             p.message_type = MIDI_MESSAGE_PITCH_BEND ∨
             p.message_type = MIDI_MESSAGE_SYSTEM_EXCLUSIVE ∨
             p.message_type = MIDI_MESSAGE_MTC_QUARTER_FRAME ∨
             p.message_type = MIDI_MESSAGE_SONG_POSITION_POINTER ∨
             p.message_type = MIDI_MESSAGE_SONG_SELECT)) :
    parse_data_byte p b m = (MIDI_MESSAGE_NONE, p, m) := by
  push_neg at hk
  obtain ⟨k1, k2, k3, k4, k5, k6, k7, k8, k9, k10, k11⟩ := hk
  simp only [MIDI_MESSAGE_NOTE_OFF, MIDI_MESSAGE_NOTE_ON,
    MIDI_MESSAGE_KEY_PRESSURE, MIDI_MESSAGE_CONTROL_CHANGE,
    MIDI_MESSAGE_PROGRAM_CHANGE, MIDI_MESSAGE_CHANNEL_PRESSURE,
    MIDI_MESSAGE_PITCH_BEND, MIDI_MESSAGE_SYSTEM_EXCLUSIVE,
    MIDI_MESSAGE_MTC_QUARTER_FRAME, MIDI_MESSAGE_SONG_POSITION_POINTER,
    MIDI_MESSAGE_SONG_SELECT] at k1 k2 k3 k4 k5 k6 k7 k8 k9 k10 k11
  simp [parse_data_byte, k1, k2, k3, k4, k5, k6, k7, k8, k9, k10, k11,
        show ¬ 127 < b by omega, show ¬ p.byte_count ≥ 2 by omega]

end Midi

namespace Midi

/-- C2: decoding any System Real-Time byte (0xF8, 0xFA, 0xFB, 0xFC, 0xFE,
0xFF) from any parser state returns that byte as the kind with channel
None and leaves every parser field exactly unchanged, so interrupted
multi-byte messages resume unaffected. -/
theorem realtime_bytes_transparent
    (p : midi_parser_t) (m : midi_message_t) (b : Nat)
    (hb : b = MIDI_MESSAGE_TIMING_CLOCK ∨ b = MIDI_MESSAGE_START ∨
          b = MIDI_MESSAGE_CONTINUE ∨ b = MIDI_MESSAGE_STOP ∨
          b = MIDI_MESSAGE_ACTIVE_SENSE ∨ b = MIDI_MESSAGE_SYSTEM_RESET) :
    midi_parse_byte p b m =
      (b, p, { m with message_type := b, channel := MIDI_CHANNEL_NONE }) := by
  rcases hb with h | h | h | h | h | h <;> subst h <;> rfl

/-- C3: from a Control Change pending state with the controller number
accumulated, the second data byte completes a message carrying
{controller, value}; its kind is the dedicated Channel-Mode kind when the
controller is 120-127 and plain Control Change otherwise. -/
theorem controlChange_channel_mode_reclassification
    (p : midi_parser_t) (m : midi_message_t) (v : Nat)
    (hk : p.message_type = MIDI_MESSAGE_CONTROL_CHANGE)
    (hc : p.channel ≤ 15) (hcount : p.byte_count = 1) (hv : v ≤ 127) :
    ((120 ≤ p.buffer0 ∧ p.buffer0 ≤ 127 →
       (midi_parse_byte p v m).1 = p.buffer0 ∧
       (midi_parse_byte p v m).2.2.message_type = p.buffer0) ∧
     (¬ (120 ≤ p.buffer0 ∧ p.buffer0 ≤ 127) →
       (midi_parse_byte p v m).1 = MIDI_MESSAGE_CONTROL_CHANGE ∧
       (midi_parse_byte p v m).2.2.message_type = MIDI_MESSAGE_CONTROL_CHANGE)) ∧
    (midi_parse_byte p v m).2.2.channel = p.channel ∧
    (midi_parse_byte p v m).2.2.controller = p.buffer0 ∧
    (midi_parse_byte p v m).2.2.control_value = v := by
  rw [midi_parse_byte_data p m hv]
  by_cases hr : 120 ≤ p.buffer0 ∧ p.buffer0 ≤ 127
  · have h8 : p.buffer0 = 120 ∨ p.buffer0 = 121 ∨ p.buffer0 = 122 ∨
        p.buffer0 = 123 ∨ p.buffer0 = 124 ∨ p.buffer0 = 125 ∨
        p.buffer0 = 126 ∨ p.buffer0 = 127 := by omega
    rcases h8 with h | h | h | h | h | h | h | h <;>
      simp [parse_data_byte, storeDataByte, hk, hcount, h, hr,
            show ¬ 127 < v by omega]
  · have h8 : ¬ (p.buffer0 = 120 ∨ p.buffer0 = 121 ∨ p.buffer0 = 122 ∨
        p.buffer0 = 123 ∨ p.buffer0 = 124 ∨ p.buffer0 = 125 ∨
        p.buffer0 = 126 ∨ p.buffer0 = 127) := by omega
    simp [parse_data_byte, storeDataByte, hk, hcount, h8, hr,
          show ¬ 127 < v by omega]

/-- C8: undefined status bytes (0xF4, 0xF5, 0xF9, 0xFD) are ignored with
no state change at all, and a data byte arriving with pending kind None
or mid-SysEx returns no message and leaves the state unchanged. -/
theorem undefined_and_orphan_bytes_ignored
    (p : midi_parser_t) (m : midi_message_t) :
    (∀ b, (b = 0xF4 ∨ b = 0xF5 ∨ b = 0xF9 ∨ b = 0xFD) →
       midi_parse_byte p b m = (MIDI_MESSAGE_NONE, p, m)) ∧
    (∀ d, d ≤ 127 → p.byte_count ≤ 1 →
       (p.message_type = MIDI_MESSAGE_NONE ∨
        p.message_type = MIDI_MESSAGE_SYSTEM_EXCLUSIVE) →
       midi_parse_byte p d m = (MIDI_MESSAGE_NONE, p, m)) := by
  constructor
  · rintro b (h | h | h | h) <;> subst h <;> rfl
  · rintro d hd hcount (hk | hk) <;>
      rw [midi_parse_byte_data p m hd] <;>
      simp [parse_data_byte, hk, show ¬ 127 < d by omega,
            show ¬ p.byte_count ≥ 2 by omega]

/-- C9: reset produces exactly the initialized state (pending None,
channel None, active channel None, buffer cleared, count 0), so any byte
sequence after a reset yields the same results as from a freshly
initialized parser. -/
theorem reset_equals_init (p : midi_parser_t) :
    midi_parser_reset p = midi_parser_init ∧
    (midi_parser_reset p).message_type = MIDI_MESSAGE_NONE ∧
    (midi_parser_reset p).channel = MIDI_CHANNEL_NONE ∧
    (midi_parser_reset p).active_channel = MIDI_CHANNEL_NONE ∧
    (midi_parser_reset p).buffer0 = 0 ∧
    (midi_parser_reset p).buffer1 = 0 ∧
    (midi_parser_reset p).byte_count = 0 ∧
    ∀ (m : midi_message_t) (bs : List Nat),
      midi_run (midi_parser_reset p) m bs = midi_run midi_parser_init m bs :=
  ⟨rfl, rfl, rfl, rfl, rfl, rfl, rfl, fun _ _ => rfl⟩

end Midi
namespace Midi

/-- `parse_status_byte` ignores the `active_channel` field. -/
theorem parse_status_byte_active (p : midi_parser_t) (c b : Nat)
    (m : midi_message_t) :
    parse_status_byte { p with active_channel := c } b m =
      ((parse_status_byte p b m).1,
       { (parse_status_byte p b m).2.1 with active_channel := c },
       (parse_status_byte p b m).2.2) := by
  simp only [parse_status_byte]
  split_ifs <;> rfl

/-- `parse_data_byte` ignores the `active_channel` field. -/
theorem parse_data_byte_active (p : midi_parser_t) (c b : Nat)
    (m : midi_message_t) :
    parse_data_byte { p with active_channel := c } b m =
      ((parse_data_byte p b m).1,
       { (parse_data_byte p b m).2.1 with active_channel := c },
       (parse_data_byte p b m).2.2) := by
  by_cases hb : 127 < b
  · rw [pd_invalid p b m hb, pd_invalid { p with active_channel := c } b m hb]
  · push_neg at hb
    by_cases h2 : 2 ≤ p.byte_count
    · rw [pd_overflow p b m hb h2,
          pd_overflow { p with active_channel := c } b m hb h2]
    · push_neg at h2
      have hc : p.byte_count ≤ 1 := by omega
      by_cases k1 : p.message_type = MIDI_MESSAGE_NOTE_OFF
      · rcases (by omega : p.byte_count = 0 ∨ p.byte_count = 1) with h0 | h1
        · rw [pd_acc p b m hb h0 (Or.inl k1),
              pd_acc { p with active_channel := c } b m hb h0 (Or.inl k1)]
        · rw [pd_fin_note_off p b m hb h1 k1,
              pd_fin_note_off { p with active_channel := c } b m hb h1 k1]
      · by_cases k2 : p.message_type = MIDI_MESSAGE_NOTE_ON
        · rcases (by omega : p.byte_count = 0 ∨ p.byte_count = 1) with h0 | h1
          · rw [pd_acc p b m hb h0 (Or.inr (Or.inl k2)),
                pd_acc { p with active_channel := c } b m hb h0
                  (Or.inr (Or.inl k2))]
          · rw [pd_fin_note_on p b m hb h1 k2,
                pd_fin_note_on { p with active_channel := c } b m hb h1 k2]
        · by_cases k3 : p.message_type = MIDI_MESSAGE_KEY_PRESSURE
          · rcases (by omega : p.byte_count = 0 ∨ p.byte_count = 1) with
              h0 | h1
            · rw [pd_acc p b m hb h0 (Or.inr (Or.inr (Or.inl k3))),
                  pd_acc { p with active_channel := c } b m hb h0
                    (Or.inr (Or.inr (Or.inl k3)))]
            · rw [pd_fin_key_pressure p b m hb h1 k3,
                  pd_fin_key_pressure { p with active_channel := c } b m hb
                    h1 k3]
          · by_cases k4 : p.message_type = MIDI_MESSAGE_CONTROL_CHANGE
            · rcases (by omega : p.byte_count = 0 ∨ p.byte_count = 1) with
                h0 | h1
              · rw [pd_acc p b m hb h0
                      (Or.inr (Or.inr (Or.inr (Or.inl k4)))),
                    pd_acc { p with active_channel := c } b m hb h0
                      (Or.inr (Or.inr (Or.inr (Or.inl k4))))]
              · rw [pd_fin_control_change p b m hb h1 k4,
                    pd_fin_control_change { p with active_channel := c } b m
                      hb h1 k4]
            · by_cases k5 : p.message_type = MIDI_MESSAGE_PROGRAM_CHANGE
              · rw [pd_program_change p b m hb hc k5,
                    pd_program_change { p with active_channel := c } b m hb
                      hc k5]
              · by_cases k6 : p.message_type = MIDI_MESSAGE_CHANNEL_PRESSURE
                · rw [pd_channel_pressure p b m hb hc k6,
                      pd_channel_pressure { p with active_channel := c } b m
                        hb hc k6]
                · by_cases k7 : p.message_type = MIDI_MESSAGE_PITCH_BEND
                  · rcases (by omega : p.byte_count = 0 ∨ p.byte_count = 1)
                      with h0 | h1
                    · rw [pd_acc p b m hb h0
                            (Or.inr (Or.inr (Or.inr (Or.inr (Or.inl k7))))),
                          pd_acc { p with active_channel := c } b m hb h0
                            (Or.inr (Or.inr (Or.inr (Or.inr (Or.inl k7)))))]
                    · rw [pd_fin_pitch_bend p b m hb h1 k7,
                          pd_fin_pitch_bend { p with active_channel := c } b
                            m hb h1 k7]
                  · by_cases k8 :
                      p.message_type = MIDI_MESSAGE_SYSTEM_EXCLUSIVE
                    · rw [pd_sysex p b m hb hc k8,
                          pd_sysex { p with active_channel := c } b m hb hc
                            k8]
                    · by_cases k9 :
                        p.message_type = MIDI_MESSAGE_MTC_QUARTER_FRAME
                      · rw [pd_mtc p b m hb hc k9,
                            pd_mtc { p with active_channel := c } b m hb hc
                              k9]
                      · by_cases k10 : p.message_type =
                          MIDI_MESSAGE_SONG_POSITION_POINTER
                        · rcases (by omega :
                              p.byte_count = 0 ∨ p.byte_count = 1) with
                            h0 | h1
                          · rw [pd_acc p b m hb h0
                                  (Or.inr (Or.inr (Or.inr (Or.inr
                                    (Or.inr k10))))),
                                pd_acc { p with active_channel := c } b m hb
                                  h0 (Or.inr (Or.inr (Or.inr (Or.inr
                                    (Or.inr k10)))))]
                          · rw [pd_fin_song_position p b m hb h1 k10,
                                pd_fin_song_position
                                  { p with active_channel := c } b m hb h1
                                  k10]
                        · by_cases k11 :
                            p.message_type = MIDI_MESSAGE_SONG_SELECT
                          · rw [pd_song_select p b m hb hc k11,
                                pd_song_select
                                  { p with active_channel := c } b m hb hc
                                  k11]
                          · have hnot : ¬ (p.message_type =
                                MIDI_MESSAGE_NOTE_OFF ∨
                               p.message_type = MIDI_MESSAGE_NOTE_ON ∨
                               p.message_type = MIDI_MESSAGE_KEY_PRESSURE ∨
                               p.message_type =
                                 MIDI_MESSAGE_CONTROL_CHANGE ∨
                               p.message_type =
                                 MIDI_MESSAGE_PROGRAM_CHANGE ∨
                               p.message_type =
                                 MIDI_MESSAGE_CHANNEL_PRESSURE ∨
                               p.message_type = MIDI_MESSAGE_PITCH_BEND ∨
                               p.message_type =
                                 MIDI_MESSAGE_SYSTEM_EXCLUSIVE ∨
                               p.message_type =
                                 MIDI_MESSAGE_MTC_QUARTER_FRAME ∨
                               p.message_type =
                                 MIDI_MESSAGE_SONG_POSITION_POINTER ∨
                               p.message_type =
                                 MIDI_MESSAGE_SONG_SELECT) := by
                              tauto
                            rw [pd_default p b m hb hc hnot,
                                pd_default { p with active_channel := c } b
                                  m hb hc hnot]

/-- C10: set_active_channel followed by get_active_channel returns the
stored value, and active_channel is never read or enforced in the decode
path: two states differing only in active_channel decode any byte to the
same kind and message with the same updates to every other field. -/
theorem active_channel_passthrough
    (p : midi_parser_t) (m : midi_message_t) (c b : Nat) :
    midi_parser_get_active_channel (midi_parser_set_active_channel p c) = c ∧
    (midi_parse_byte { p with active_channel := c } b m).1 =
      (midi_parse_byte p b m).1 ∧
    (midi_parse_byte { p with active_channel := c } b m).2.2 =
      (midi_parse_byte p b m).2.2 ∧
    (midi_parse_byte { p with active_channel := c } b m).2.1 =
      { (midi_parse_byte p b m).2.1 with active_channel := c } := by
  refine ⟨rfl, ?_, ?_, ?_⟩ <;>
  · by_cases hb : b &&& MIDI_MSB_MASK ≠ 0
    · simp only [midi_parse_byte, if_pos hb, parse_status_byte_active]
    · simp only [midi_parse_byte, if_neg hb, parse_data_byte_active]

end Midi
namespace Midi

set_option maxRecDepth 100000 in
/-- C5: decoding Tune Request (0xF6) or End of Exclusive (0xF7)
immediately completes as that kind with channel None and clears running
status (pending None, count 0), so a following data byte is ignored; and
among all status bytes only 0xF6/0xF7 both complete a message and clear
running status in the same step. -/
theorem tune_request_eox_complete_and_clear
    (p : midi_parser_t) (m : midi_message_t) (b : Nat)
    (hb : b = MIDI_MESSAGE_TUNE_REQUEST ∨ b = MIDI_MESSAGE_END_OF_EXCLUSIVE) :
    (midi_parse_byte p b m).1 = b ∧
    (midi_parse_byte p b m).2.2.message_type = b ∧
    (midi_parse_byte p b m).2.2.channel = MIDI_CHANNEL_NONE ∧
    (midi_parse_byte p b m).2.1.message_type = MIDI_MESSAGE_NONE ∧
    (midi_parse_byte p b m).2.1.byte_count = 0 ∧
    (∀ (d : Nat) (m2 : midi_message_t), d ≤ 127 →
       midi_parse_byte (midi_parse_byte p b m).2.1 d m2 =
         (MIDI_MESSAGE_NONE, (midi_parse_byte p b m).2.1, m2)) ∧
    (∀ s, s < 256 → 128 ≤ s →
       (((midi_parse_byte noteOnPending s msg0).1 ≠ MIDI_MESSAGE_NONE ∧
         (midi_parse_byte noteOnPending s msg0).2.1.message_type =
           MIDI_MESSAGE_NONE) ↔
        (s = MIDI_MESSAGE_TUNE_REQUEST ∨
         s = MIDI_MESSAGE_END_OF_EXCLUSIVE))) := by
  have huniq : ∀ s, s < 256 → 128 ≤ s →
      (((midi_parse_byte noteOnPending s msg0).1 ≠ MIDI_MESSAGE_NONE ∧
        (midi_parse_byte noteOnPending s msg0).2.1.message_type =
          MIDI_MESSAGE_NONE) ↔
       (s = MIDI_MESSAGE_TUNE_REQUEST ∨
        s = MIDI_MESSAGE_END_OF_EXCLUSIVE)) := by decide
  rcases hb with h | h <;> subst h
  · refine ⟨rfl, rfl, rfl, rfl, rfl, fun d m2 hd => ?_, huniq⟩
    have hstep : midi_parse_byte p MIDI_MESSAGE_TUNE_REQUEST m =
        (MIDI_MESSAGE_TUNE_REQUEST,
         { p with message_type := MIDI_MESSAGE_NONE,
                  channel := MIDI_CHANNEL_NONE, byte_count := 0 },
         { m with message_type := MIDI_MESSAGE_TUNE_REQUEST,
                  channel := MIDI_CHANNEL_NONE }) := rfl
    rw [hstep, midi_parse_byte_data _ _ hd,
        pd_default _ d m2 hd (by simp) (by simp)]
  · refine ⟨rfl, rfl, rfl, rfl, rfl, fun d m2 hd => ?_, huniq⟩
    have hstep : midi_parse_byte p MIDI_MESSAGE_END_OF_EXCLUSIVE m =
        (MIDI_MESSAGE_END_OF_EXCLUSIVE,
         { p with message_type := MIDI_MESSAGE_NONE,
                  channel := MIDI_CHANNEL_NONE, byte_count := 0 },
         { m with message_type := MIDI_MESSAGE_END_OF_EXCLUSIVE,
                  channel := MIDI_CHANNEL_NONE }) := rfl
    rw [hstep, midi_parse_byte_data _ _ hd,
        pd_default _ d m2 hd (by simp) (by simp)]

/-- C6: completing a Pitch Bend or Song Position Pointer from two data
bytes (lo then hi, each 0-127) delivers the 14-bit payload
hi * 128 + lo: low 7 bits from the first byte, high 7 bits from the
second, with no overflow for any input pair. -/
theorem fourteen_bit_payload_assembly
    (p : midi_parser_t) (m : midi_message_t) (lo hi : Nat)
    (hlo : lo ≤ 127) (hhi : hi ≤ 127) (h0 : p.byte_count = 0) :
    (p.message_type = MIDI_MESSAGE_PITCH_BEND →
      (midi_parse_byte (midi_parse_byte p lo m).2.1 hi
          (midi_parse_byte p lo m).2.2).1 = MIDI_MESSAGE_PITCH_BEND ∧
      (midi_parse_byte (midi_parse_byte p lo m).2.1 hi
          (midi_parse_byte p lo m).2.2).2.2.pitch_bend = hi * 128 + lo) ∧
    (p.message_type = MIDI_MESSAGE_SONG_POSITION_POINTER →
      (midi_parse_byte (midi_parse_byte p lo m).2.1 hi
          (midi_parse_byte p lo m).2.2).1 =
        MIDI_MESSAGE_SONG_POSITION_POINTER ∧
      (midi_parse_byte (midi_parse_byte p lo m).2.1 hi
          (midi_parse_byte p lo m).2.2).2.2.song_position =
        hi * 128 + lo) := by
  constructor
  · intro hk
    have h1 : midi_parse_byte p lo m =
        (MIDI_MESSAGE_NONE, { p with buffer0 := lo, byte_count := 1 }, m) := by
      rw [midi_parse_byte_data p m hlo,
          pd_acc p lo m hlo h0
            (Or.inr (Or.inr (Or.inr (Or.inr (Or.inl hk)))))]
    simp only [h1]
    rw [midi_parse_byte_data { p with buffer0 := lo, byte_count := 1 } m hhi,
        pd_fin_pitch_bend { p with buffer0 := lo, byte_count := 1 } hi m
          hhi rfl hk]
    exact ⟨rfl, by simp [assemble14 hi hlo]⟩
  · intro hk
    have h1 : midi_parse_byte p lo m =
        (MIDI_MESSAGE_NONE, { p with buffer0 := lo, byte_count := 1 }, m) := by
      rw [midi_parse_byte_data p m hlo,
          pd_acc p lo m hlo h0
            (Or.inr (Or.inr (Or.inr (Or.inr (Or.inr hk)))))]
    simp only [h1]
    rw [midi_parse_byte_data { p with buffer0 := lo, byte_count := 1 } m hhi,
        pd_fin_song_position { p with buffer0 := lo, byte_count := 1 } hi m
          hhi rfl hk]
    exact ⟨rfl, by simp [assemble14 hi hlo]⟩

end Midi
namespace Midi

/-- Nibble arithmetic for channel-voice status bytes `base + c`, `c ≤ 15`. -/
theorem voice_status_masks (c base : Nat) (hc : c ≤ 15)
    (hb : base = 0x80 ∨ base = 0x90 ∨ base = 0xA0 ∨ base = 0xB0 ∨
          base = 0xC0 ∨ base = 0xD0 ∨ base = 0xE0) :
    (base + c) &&& 0xF0 = base ∧ (base + c) &&& 0x0F = c ∧
    (base + c) &&& 0x80 = 0x80 := by
  rcases hb with h | h | h | h | h | h | h <;> subst h <;>
    interval_cases c <;> decide

/-- Decoding a channel-voice status byte `base + c` stores the running
status and channel and resets the accumulation count. -/
theorem ps_voice_status (p : midi_parser_t) (m : midi_message_t)
    (c base : Nat) (hc : c ≤ 15)
    (hb : base = 0x80 ∨ base = 0x90 ∨ base = 0xA0 ∨ base = 0xB0 ∨
          base = 0xC0 ∨ base = 0xD0 ∨ base = 0xE0) :
    midi_parse_byte p (base + c) m =
      (MIDI_MESSAGE_NONE,
       { p with message_type := base, channel := c, byte_count := 0 },
       m) := by
  obtain ⟨h1, h2, h3⟩ := voice_status_masks c base hc hb
  rcases hb with h | h | h | h | h | h | h <;> subst h <;>
    simp [midi_parse_byte, parse_status_byte, h1, h2, h3]

/-- C4: completing a channel voice message leaves the parser pending
message type and channel unchanged (running status); concretely, after a
Note On status byte a bare data-byte pair completes another Note On on
the same channel, and a Program Change or Channel Pressure status byte
followed by two bare data bytes completes two messages of that kind. -/
theorem running_status_persistence :
    (∀ (p : midi_parser_t) (m : midi_message_t) (b : Nat), b ≤ 127 →
      (p.message_type = MIDI_MESSAGE_NOTE_OFF ∨
       p.message_type = MIDI_MESSAGE_NOTE_ON ∨
       p.message_type = MIDI_MESSAGE_KEY_PRESSURE ∨
       p.message_type = MIDI_MESSAGE_CONTROL_CHANGE ∨
       p.message_type = MIDI_MESSAGE_PROGRAM_CHANGE ∨
       p.message_type = MIDI_MESSAGE_CHANNEL_PRESSURE ∨
       p.message_type = MIDI_MESSAGE_PITCH_BEND) →
      (midi_parse_byte p b m).2.1.message_type = p.message_type ∧
      (midi_parse_byte p b m).2.1.channel = p.channel) ∧
    (∀ (p0 : midi_parser_t) (m : midi_message_t) (c n v n2 v2 : Nat),
      c ≤ 15 → n ≤ 127 → 1 ≤ v → v ≤ 127 → n2 ≤ 127 → 1 ≤ v2 → v2 ≤ 127 →
      (midi_run p0 m [0x90 + c, n, v, n2, v2]).map Prod.fst =
        [MIDI_MESSAGE_NONE, MIDI_MESSAGE_NONE, MIDI_MESSAGE_NOTE_ON,
         MIDI_MESSAGE_NONE, MIDI_MESSAGE_NOTE_ON] ∧
      ((midi_run p0 m [0x90 + c, n, v, n2, v2])[4]?).map
          (fun r => (r.2.channel, r.2.note, r.2.velocity)) =
        some (c, n2, v2)) ∧
    (∀ (p0 : midi_parser_t) (m : midi_message_t) (c d d2 : Nat),
      c ≤ 15 → d ≤ 127 → d2 ≤ 127 →
      (midi_run p0 m [0xC0 + c, d, d2]).map Prod.fst =
        [MIDI_MESSAGE_NONE, MIDI_MESSAGE_PROGRAM_CHANGE,
         MIDI_MESSAGE_PROGRAM_CHANGE] ∧
      ((midi_run p0 m [0xC0 + c, d, d2])[2]?).map
          (fun r => (r.2.channel, r.2.program)) = some (c, d2)) ∧
    (∀ (p0 : midi_parser_t) (m : midi_message_t) (c d d2 : Nat),
      c ≤ 15 → d ≤ 127 → d2 ≤ 127 →
      (midi_run p0 m [0xD0 + c, d, d2]).map Prod.fst =
        [MIDI_MESSAGE_NONE, MIDI_MESSAGE_CHANNEL_PRESSURE,
         MIDI_MESSAGE_CHANNEL_PRESSURE] ∧
      ((midi_run p0 m [0xD0 + c, d, d2])[2]?).map
          (fun r => (r.2.channel, r.2.channel_pressure)) = some (c, d2)) := by
  refine ⟨?_, ?_, ?_, ?_⟩
  · rintro p m b hb hk
    rw [midi_parse_byte_data p m hb]
    by_cases h2 : 2 ≤ p.byte_count
    · rw [pd_overflow p b m hb h2]
      exact ⟨rfl, rfl⟩
    · push_neg at h2
      have hc : p.byte_count ≤ 1 := by omega
      rcases hk with h | h | h | h | h | h | h
      · rcases (by omega : p.byte_count = 0 ∨ p.byte_count = 1) with h0 | h1
        · rw [pd_acc p b m hb h0 (Or.inl h)]; exact ⟨rfl, rfl⟩
        · rw [pd_fin_note_off p b m hb h1 h]; exact ⟨rfl, rfl⟩
      · rcases (by omega : p.byte_count = 0 ∨ p.byte_count = 1) with h0 | h1
        · rw [pd_acc p b m hb h0 (Or.inr (Or.inl h))]; exact ⟨rfl, rfl⟩
        · rw [pd_fin_note_on p b m hb h1 h]; exact ⟨rfl, rfl⟩
      · rcases (by omega : p.byte_count = 0 ∨ p.byte_count = 1) with h0 | h1
        · rw [pd_acc p b m hb h0 (Or.inr (Or.inr (Or.inl h)))]
          exact ⟨rfl, rfl⟩
        · rw [pd_fin_key_pressure p b m hb h1 h]; exact ⟨rfl, rfl⟩
      · rcases (by omega : p.byte_count = 0 ∨ p.byte_count = 1) with h0 | h1
        · rw [pd_acc p b m hb h0 (Or.inr (Or.inr (Or.inr (Or.inl h))))]
          exact ⟨rfl, rfl⟩
        · rw [pd_fin_control_change p b m hb h1 h]; exact ⟨rfl, rfl⟩
      · rw [pd_program_change p b m hb hc h]; exact ⟨rfl, rfl⟩
      · rw [pd_channel_pressure p b m hb hc h]; exact ⟨rfl, rfl⟩
      · rcases (by omega : p.byte_count = 0 ∨ p.byte_count = 1) with h0 | h1
        · rw [pd_acc p b m hb h0
                (Or.inr (Or.inr (Or.inr (Or.inr (Or.inl h)))))]
          exact ⟨rfl, rfl⟩
        · rw [pd_fin_pitch_bend p b m hb h1 h]; exact ⟨rfl, rfl⟩
  · intro p0 m c n v n2 v2 hc hn hv1 hv hn2 hv21 hv2
    have hs := ps_voice_status p0 m c 0x90 hc (by tauto)
    simp only [midi_run, hs]
    rw [midi_parse_byte_data
          { p0 with message_type := 0x90, channel := c, byte_count := 0 }
          m hn,
        pd_acc { p0 with message_type := 0x90, channel := c, byte_count := 0 }
          n m hn rfl (Or.inr (Or.inl rfl))]
    rw [midi_parse_byte_data
          { p0 with message_type := 0x90, channel := c, buffer0 := n,
                    byte_count := 1 } m hv,
        pd_fin_note_on
          { p0 with message_type := 0x90, channel := c, buffer0 := n,
                    byte_count := 1 } v m hv rfl rfl]
    simp only [if_neg (by omega : ¬ v = 0)]
    rw [midi_parse_byte_data
          { p0 with message_type := 0x90, channel := c, buffer0 := n,
                    buffer1 := v, byte_count := 0 } _ hn2,
        pd_acc
          { p0 with message_type := 0x90, channel := c, buffer0 := n,
                    buffer1 := v, byte_count := 0 } n2 _ hn2 rfl
          (Or.inr (Or.inl rfl))]
    rw [midi_parse_byte_data
          { p0 with message_type := 0x90, channel := c, buffer0 := n2,
                    buffer1 := v, byte_count := 1 } _ hv2,
        pd_fin_note_on
          { p0 with message_type := 0x90, channel := c, buffer0 := n2,
                    buffer1 := v, byte_count := 1 } v2 _ hv2 rfl rfl]
    simp [if_neg (by omega : ¬ v2 = 0)]
  · intro p0 m c d d2 hc hd hd2
    have hs := ps_voice_status p0 m c 0xC0 hc (by tauto)
    simp only [midi_run, hs]
    rw [midi_parse_byte_data
          { p0 with message_type := 0xC0, channel := c, byte_count := 0 }
          m hd,
        pd_program_change
          { p0 with message_type := 0xC0, channel := c, byte_count := 0 }
          d m hd (by simp) rfl]
    rw [midi_parse_byte_data
          { p0 with message_type := 0xC0, channel := c, byte_count := 0 }
          _ hd2,
        pd_program_change
          { p0 with message_type := 0xC0, channel := c, byte_count := 0 }
          d2 _ hd2 (by simp) rfl]
    simp
  · intro p0 m c d d2 hc hd hd2
    have hs := ps_voice_status p0 m c 0xD0 hc (by tauto)
    simp only [midi_run, hs]
    rw [midi_parse_byte_data
          { p0 with message_type := 0xD0, channel := c, byte_count := 0 }
          m hd,
        pd_channel_pressure
          { p0 with message_type := 0xD0, channel := c, byte_count := 0 }
          d m hd (by simp) rfl]
    rw [midi_parse_byte_data
          { p0 with message_type := 0xD0, channel := c, byte_count := 0 }
          _ hd2,
        pd_channel_pressure
          { p0 with message_type := 0xD0, channel := c, byte_count := 0 }
          d2 _ hd2 (by simp) rfl]
    simp

end Midi
namespace Midi

/-- A status byte either resets the accumulation count or leaves the
parser state untouched. -/
theorem ps_state (p : midi_parser_t) (b : Nat) (m : midi_message_t) :
    (parse_status_byte p b m).2.1.byte_count = 0 ∨
    (parse_status_byte p b m).2.1 = p := by
  simp only [parse_status_byte]
  split_ifs <;> simp

/-- `parse_data_byte` preserves the decode-step invariant. -/
theorem pd_inv (p : midi_parser_t) (b : Nat) (m : midi_message_t)
    (h : ParserInv p) : ParserInv (parse_data_byte p b m).2.1 := by
  obtain ⟨hcnt, hreq⟩ := h
  by_cases hb : 127 < b
  · rw [pd_invalid p b m hb]; exact ⟨hcnt, hreq⟩
  · push_neg at hb
    by_cases k1 : p.message_type = MIDI_MESSAGE_NOTE_OFF
    · rcases (by omega : p.byte_count = 0 ∨ p.byte_count = 1) with h0 | h1
      · rw [pd_acc p b m hb h0 (Or.inl k1)]
        exact ⟨by simp, Or.inr (by simp [requiredDataBytes, k1])⟩
      · rw [pd_fin_note_off p b m hb h1 k1]; exact ⟨by simp, Or.inl rfl⟩
    · by_cases k2 : p.message_type = MIDI_MESSAGE_NOTE_ON
      · rcases (by omega : p.byte_count = 0 ∨ p.byte_count = 1) with h0 | h1
        · rw [pd_acc p b m hb h0 (Or.inr (Or.inl k2))]
          exact ⟨by simp, Or.inr (by simp [requiredDataBytes, k2])⟩
        · rw [pd_fin_note_on p b m hb h1 k2]; exact ⟨by simp, Or.inl rfl⟩
      · by_cases k3 : p.message_type = MIDI_MESSAGE_KEY_PRESSURE
        · rcases (by omega : p.byte_count = 0 ∨ p.byte_count = 1) with
            h0 | h1
          · rw [pd_acc p b m hb h0 (Or.inr (Or.inr (Or.inl k3)))]
            exact ⟨by simp, Or.inr (by simp [requiredDataBytes, k3])⟩
          · rw [pd_fin_key_pressure p b m hb h1 k3]
            exact ⟨by simp, Or.inl rfl⟩
        · by_cases k4 : p.message_type = MIDI_MESSAGE_CONTROL_CHANGE
          · rcases (by omega : p.byte_count = 0 ∨ p.byte_count = 1) with
              h0 | h1
            · rw [pd_acc p b m hb h0 (Or.inr (Or.inr (Or.inr (Or.inl k4))))]
              exact ⟨by simp, Or.inr (by simp [requiredDataBytes, k4])⟩
            · rw [pd_fin_control_change p b m hb h1 k4]
              exact ⟨by simp, Or.inl rfl⟩
          · by_cases k5 : p.message_type = MIDI_MESSAGE_PROGRAM_CHANGE
            · rw [pd_program_change p b m hb hcnt k5]
              exact ⟨by simp, Or.inl rfl⟩
            · by_cases k6 : p.message_type = MIDI_MESSAGE_CHANNEL_PRESSURE
              · rw [pd_channel_pressure p b m hb hcnt k6]
                exact ⟨by simp, Or.inl rfl⟩
              · by_cases k7 : p.message_type = MIDI_MESSAGE_PITCH_BEND
                · rcases (by omega : p.byte_count = 0 ∨ p.byte_count = 1)
                    with h0 | h1
                  · rw [pd_acc p b m hb h0
                          (Or.inr (Or.inr (Or.inr (Or.inr (Or.inl k7)))))]
                    exact ⟨by simp, Or.inr (by simp [requiredDataBytes, k7])⟩
                  · rw [pd_fin_pitch_bend p b m hb h1 k7]
                    exact ⟨by simp, Or.inl rfl⟩
                · by_cases k8 :
                    p.message_type = MIDI_MESSAGE_SYSTEM_EXCLUSIVE
                  · rw [pd_sysex p b m hb hcnt k8]; exact ⟨hcnt, hreq⟩
                  · by_cases k9 :
                      p.message_type = MIDI_MESSAGE_MTC_QUARTER_FRAME
                    · rw [pd_mtc p b m hb hcnt k9]
                      exact ⟨by simp, Or.inl rfl⟩
                    · by_cases k10 : p.message_type =
                        MIDI_MESSAGE_SONG_POSITION_POINTER
                      · rcases (by omega :
                            p.byte_count = 0 ∨ p.byte_count = 1) with
                          h0 | h1
                        · rw [pd_acc p b m hb h0 (Or.inr (Or.inr (Or.inr
                                (Or.inr (Or.inr k10)))))]
                          exact ⟨by simp,
                                 Or.inr (by simp [requiredDataBytes, k10])⟩
                        · rw [pd_fin_song_position p b m hb h1 k10]
                          exact ⟨by simp, Or.inl rfl⟩
                      · by_cases k11 :
                          p.message_type = MIDI_MESSAGE_SONG_SELECT
                        · rw [pd_song_select p b m hb hcnt k11]
                          exact ⟨by simp, Or.inl rfl⟩
                        · rw [pd_default p b m hb hcnt (by tauto)]
                          exact ⟨hcnt, hreq⟩

/-- Every reachable parser state satisfies the decode-step invariant. -/
theorem reachable_inv (p : midi_parser_t) (h : Reachable p) : ParserInv p := by
  induction h with
  | init => exact ⟨by simp [midi_parser_init], Or.inl rfl⟩
  | step p b m hb hr ih =>
    rw [midi_parse_byte]
    split_ifs with hmsb
    · rcases ps_state p b m with h0 | h0
      · exact ⟨by omega, Or.inl h0⟩
      · rw [h0]; exact ih
    · exact pd_inv p b m ih

/-- C7: in every state reachable from the initialized parser by decode
calls, byte_count never exceeds the data-byte requirement of the pending
type and is always 0 or 1 at the start of a decode call; if the count is
ever at the 2-byte capacity when a data byte arrives, the decoder resets
the count to 0, ignores the byte and returns no message. -/
theorem accumulation_count_invariant :
    (∀ p : midi_parser_t, Reachable p →
       p.byte_count ≤ requiredDataBytes p.message_type ∧
       p.byte_count ≤ 1) ∧
    (∀ (p : midi_parser_t) (b : Nat) (m : midi_message_t), b ≤ 127 →
       MIDI_BUFFER_SIZE ≤ p.byte_count →
       midi_parse_byte p b m =
         (MIDI_MESSAGE_NONE, { p with byte_count := 0 }, m)) := by
  constructor
  · intro p h
    obtain ⟨h1, h2⟩ := reachable_inv p h
    refine ⟨?_, h1⟩
    rcases h2 with h0 | h0
    · simp [h0]
    · rw [h0]; omega
  · intro p b m hb h2
    rw [midi_parse_byte_data p m hb, pd_overflow p b m hb h2]

end Midi
namespace Midi

/-- Witness for C1 at channel 3, note 60, velocities 0 and 100. -/
theorem noteOn_velocity_reclassification_witness :
    (midi_parse_byte wNoteOn 0 msg0).1 = MIDI_MESSAGE_NOTE_OFF ∧
    (midi_parse_byte wNoteOn 100 msg0).1 = MIDI_MESSAGE_NOTE_ON ∧
    (midi_parse_byte wNoteOn 100 msg0).2.1.message_type =
      MIDI_MESSAGE_NOTE_ON := by
  refine ⟨?_, ?_, ?_⟩
  · have h := noteOn_velocity_reclassification wNoteOn msg0 0 rfl
      (by decide) (by decide) rfl (by decide)
    simpa using h.1
  · have h := noteOn_velocity_reclassification wNoteOn msg0 100 rfl
      (by decide) (by decide) rfl (by decide)
    simpa using h.1
  · have h := noteOn_velocity_reclassification wNoteOn msg0 100 rfl
      (by decide) (by decide) rfl (by decide)
    exact h.2.2.2.2.2

/-- Witness for C2 at the Timing Clock byte. -/
theorem realtime_bytes_transparent_witness :
    midi_parse_byte noteOnPending 0xF8 msg0 =
      (0xF8, noteOnPending,
       { msg0 with message_type := 0xF8, channel := MIDI_CHANNEL_NONE }) :=
  realtime_bytes_transparent noteOnPending msg0 0xF8 (Or.inl rfl)

/-- Witness for C3 at controller 123 (All Notes Off), value 5. -/
theorem controlChange_channel_mode_reclassification_witness :
    (midi_parse_byte wCC 5 msg0).1 = 123 ∧
    (midi_parse_byte wCC 5 msg0).2.2.controller = 123 ∧
    (midi_parse_byte wCC 5 msg0).2.2.control_value = 5 := by
  have h := controlChange_channel_mode_reclassification wCC msg0 5 rfl
    (by decide) rfl (by decide)
  exact ⟨by simpa [wCC] using (h.1.1 (by decide)).1,
         by simpa [wCC] using h.2.2.1,
         h.2.2.2⟩

/-- Witness for C4: a concrete running-status Note On and Program Change
stream from the initialized parser. -/
theorem running_status_persistence_witness :
    (midi_run midi_parser_init msg0 [0x93, 60, 100, 64, 99]).map Prod.fst =
      [0, 0, 0x90, 0, 0x90] ∧
    (midi_run midi_parser_init msg0 [0xC2, 7, 8]).map Prod.fst =
      [0, 0xC0, 0xC0] := by
  constructor
  · have h := running_status_persistence.2.1 midi_parser_init msg0 3 60 100
      64 99 (by decide) (by decide) (by decide) (by decide) (by decide)
      (by decide) (by decide)
    simpa using h.1
  · have h := running_status_persistence.2.2.1 midi_parser_init msg0 2 7 8
      (by decide) (by decide) (by decide)
    simpa using h.1

/-- Witness for C5 at the Tune Request byte from a Note On pending state. -/
theorem tune_request_eox_complete_and_clear_witness :
    (midi_parse_byte noteOnPending 0xF6 msg0).1 =
      MIDI_MESSAGE_TUNE_REQUEST ∧
    (midi_parse_byte noteOnPending 0xF6 msg0).2.1.message_type =
      MIDI_MESSAGE_NONE := by
  have h := tune_request_eox_complete_and_clear noteOnPending msg0 0xF6
    (Or.inl rfl)
  exact ⟨h.1, h.2.2.2.1⟩

/-- Witness for C6: pitch bend bytes lo=1, hi=64 assemble to 8193. -/
theorem fourteen_bit_payload_assembly_witness :
    (midi_parse_byte (midi_parse_byte pitchBendPending 1 msg0).2.1 64
        (midi_parse_byte pitchBendPending 1 msg0).2.2).2.2.pitch_bend =
      8193 := by
  have h := fourteen_bit_payload_assembly pitchBendPending msg0 1 64
    (by decide) (by decide) rfl
  simpa using (h.1 rfl).2

/-- Witness for C7: the initial state is reachable and satisfies the
bound, and a corrupted count of 2 is clamped. -/
theorem accumulation_count_invariant_witness :
    midi_parser_init.byte_count ≤ 1 ∧
    midi_parse_byte { midi_parser_init with byte_count := 2 } 5 msg0 =
      (MIDI_MESSAGE_NONE, { midi_parser_init with byte_count := 0 },
       msg0) := by
  constructor
  · exact (accumulation_count_invariant.1 midi_parser_init Reachable.init).2
  · have h := accumulation_count_invariant.2
      { midi_parser_init with byte_count := 2 } 5 msg0 (by decide)
      (by decide)
    simpa [midi_parser_init] using h

/-- Witness for C8 at an undefined status byte and an orphan data byte. -/
theorem undefined_and_orphan_bytes_ignored_witness :
    midi_parse_byte midi_parser_init 0xF4 msg0 =
      (MIDI_MESSAGE_NONE, midi_parser_init, msg0) ∧
    midi_parse_byte midi_parser_init 5 msg0 =
      (MIDI_MESSAGE_NONE, midi_parser_init, msg0) := by
  have h := undefined_and_orphan_bytes_ignored midi_parser_init msg0
  exact ⟨h.1 0xF4 (Or.inl rfl), h.2 5 (by decide) (by decide) (Or.inl rfl)⟩

end Midi
